import Mathlib

/-!
# NetGauze — verification of the wire-protocol core

A shallow embedding, in Lean 4, of the parts of the NetGauze repository
that the specification's claims refer to:

* the BGP path-attribute data model and its flag-matrix validating
  constructor (`crates/bgp-pkt/src/path_attribute/path_attribute.rs`);
* the top-level BGP message serializer
  (`crates/bgp-pkt/src/wire/serializer/mod.rs`);
* the BMP v4 route-monitoring TLV builders (`crates/bmp-pkt/src/v4.rs`);
* the legacy BGP path-attribute deserializer
  (`netgauze-bgp-pkt/src/serde/deserializer/path_attribute.rs`);
* a NetFlow v9 packet decoder modelled from the specification (the
  decoder implementation itself is not part of the provided sources,
  only its tests are).

Machine integers are embedded as `Nat` with explicit `% 2^w` reductions
where overflow is observable; byte buffers are `List Nat`; fallible
operations return `Except`; the `todo!()` macro in the legacy
deserializer is modelled by a dedicated outcome constructor.
-/

namespace NetGauze

/-! ## IANA address families

Modelled from the spec: the `netgauze-iana` crate is not among the
provided sources.  `AddressFamily` and `SubsequentAddressFamily` are the
IANA registries named in spec §3 and §6; `AddressType` is the pairing
used by the BGP multiprotocol attributes, with the (AFI, SAFI)
projections fixed by RFC 4760 / RFC 7752 / RFC 7432 as cited in §6. -/

inductive AddressFamily where
  | IPv4
  | IPv6
  | L2vpn
  | BgpLs
  | AppleTalk
  deriving DecidableEq

inductive SubsequentAddressFamily where
  | Unicast
  | Multicast
  | NlriMplsLabels
  | MplsVpn
  | BgpEvpn
  | BgpLs
  | BgpLsVpn
  | RouteTargetConstrains
  deriving DecidableEq

inductive AddressType where
  | Ipv4Unicast
  | Ipv4Multicast
  | Ipv4NlriMplsLabels
  | Ipv4MplsLabeledVpn
  | Ipv6Unicast
  | Ipv6Multicast
  | Ipv6NlriMplsLabels
  | Ipv6MplsLabeledVpn
  | L2VpnBgpEvpn
  | RouteTargetConstrains
  | BgpLs
  | BgpLsVpn
  deriving DecidableEq

def AddressType.address_family : AddressType → AddressFamily
  | .Ipv4Unicast => .IPv4
  | .Ipv4Multicast => .IPv4
  | .Ipv4NlriMplsLabels => .IPv4
  | .Ipv4MplsLabeledVpn => .IPv4
  | .Ipv6Unicast => .IPv6
  | .Ipv6Multicast => .IPv6
  | .Ipv6NlriMplsLabels => .IPv6
  | .Ipv6MplsLabeledVpn => .IPv6
  | .L2VpnBgpEvpn => .L2vpn
  | .RouteTargetConstrains => .IPv4
  | .BgpLs => .BgpLs
  | .BgpLsVpn => .BgpLs

def AddressType.subsequent_address_family : AddressType → SubsequentAddressFamily
  | .Ipv4Unicast => .Unicast
  | .Ipv4Multicast => .Multicast
  | .Ipv4NlriMplsLabels => .NlriMplsLabels
  | .Ipv4MplsLabeledVpn => .MplsVpn
  | .Ipv6Unicast => .Unicast
  | .Ipv6Multicast => .Multicast
  | .Ipv6NlriMplsLabels => .NlriMplsLabels
  | .Ipv6MplsLabeledVpn => .MplsVpn
  | .L2VpnBgpEvpn => .BgpEvpn
  | .RouteTargetConstrains => .RouteTargetConstrains
  | .BgpLs => .BgpLs
  | .BgpLsVpn => .BgpLsVpn

/-! ## Elementary value types

IPv4/IPv6 addresses are `Nat` (their numeric value); `IpAddr` mirrors
`std::net::IpAddr`. -/

abbrev Ipv4Addr := Nat
abbrev Ipv6Addr := Nat

inductive IpAddr where
  | V4 (addr : Ipv4Addr)
  | V6 (addr : Ipv6Addr)
  deriving DecidableEq

/-! ## NLRI payload carriers

Modelled from the spec: the `crate::nlri` module is not among the
provided sources.  Spec §3 describes each NLRI element as a family
specific route (a value the codec preserves); the claims under
verification depend only on the enclosing `MpReach`/`MpUnreach`
variant, so each element type carries its route as an uninterpreted
octet string. -/

structure Ipv4UnicastAddress where
  raw : List Nat
  deriving DecidableEq

structure Ipv4MulticastAddress where
  raw : List Nat
  deriving DecidableEq

structure Ipv4NlriMplsLabelsAddress where
  raw : List Nat
  deriving DecidableEq

structure Ipv4MplsVpnUnicastAddress where
  raw : List Nat
  deriving DecidableEq

structure Ipv6UnicastAddress where
  raw : List Nat
  deriving DecidableEq

structure Ipv6MulticastAddress where
  raw : List Nat
  deriving DecidableEq

structure Ipv6NlriMplsLabelsAddress where
  raw : List Nat
  deriving DecidableEq

structure Ipv6MplsVpnUnicastAddress where
  raw : List Nat
  deriving DecidableEq

structure L2EvpnAddress where
  raw : List Nat
  deriving DecidableEq

structure RouteTargetMembershipAddress where
  raw : List Nat
  deriving DecidableEq

structure BgpLsNlri where
  raw : List Nat
  deriving DecidableEq

structure BgpLsVpnNlri where
  raw : List Nat
  deriving DecidableEq

structure LabeledNextHop where
  raw : List Nat
  deriving DecidableEq

/-! ## Communities

Modelled from the spec: the `community` module is not among the
provided sources.  Spec §3: Communities are 4-octet values (RFC 1997),
extended communities 8-octet (RFC 4360), large communities three
4-octet words (RFC 8092). -/

abbrev Community := Nat

abbrev ExtendedCommunity := Nat

abbrev ExtendedCommunityIpv6 := Nat

structure LargeCommunity where
  globalAdmin : Nat
  localData1 : Nat
  localData2 : Nat
  deriving DecidableEq

/-! ## BGP path-attribute values

From `crates/bgp-pkt/src/path_attribute/path_attribute.rs`.  Every
`impl PathAttributeValueProperties for T` in the source becomes a
triple of constants `T.canBeOptional` / `T.canBeTransitive` /
`T.canBePartial` (`can_be_partial` is renamed in camel case because
`partial` is a Lean keyword). -/

inductive Origin where
  | IGP
  | EGP
  | Incomplete
  deriving DecidableEq

def Origin.canBeOptional : Option Bool := some false
def Origin.canBeTransitive : Option Bool := some true
def Origin.canBePartial : Option Bool := some false

inductive AsPathSegmentType where
  | AsSet
  | AsSequence
  deriving DecidableEq

structure As2PathSegment where
  segment_type : AsPathSegmentType
  as_numbers : List Nat
  deriving DecidableEq

structure As4PathSegment where
  segment_type : AsPathSegmentType
  as_numbers : List Nat
  deriving DecidableEq

inductive AsPath where
  | As2PathSegments (segments : List As2PathSegment)
  | As4PathSegments (segments : List As4PathSegment)
  deriving DecidableEq

def AsPath.canBeOptional : Option Bool := some false
def AsPath.canBeTransitive : Option Bool := some true
def AsPath.canBePartial : Option Bool := some false

structure As4Path where
  segments : List As4PathSegment
  deriving DecidableEq

def As4Path.canBeOptional : Option Bool := some true
def As4Path.canBeTransitive : Option Bool := some true
def As4Path.canBePartial : Option Bool := none

structure NextHop where
  next_hop : Ipv4Addr
  deriving DecidableEq

def NextHop.canBeOptional : Option Bool := some false
def NextHop.canBeTransitive : Option Bool := some true
def NextHop.canBePartial : Option Bool := some false

structure MultiExitDiscriminator where
  metric : Nat
  deriving DecidableEq

def MultiExitDiscriminator.canBeOptional : Option Bool := some true
def MultiExitDiscriminator.canBeTransitive : Option Bool := some false
def MultiExitDiscriminator.canBePartial : Option Bool := some false

structure LocalPreference where
  metric : Nat
  deriving DecidableEq

def LocalPreference.canBeOptional : Option Bool := some false
def LocalPreference.canBeTransitive : Option Bool := some true
def LocalPreference.canBePartial : Option Bool := some false

structure AtomicAggregate where
  deriving DecidableEq

def AtomicAggregate.canBeOptional : Option Bool := some false
def AtomicAggregate.canBeTransitive : Option Bool := some true
def AtomicAggregate.canBePartial : Option Bool := some false

structure As2Aggregator where
  asn : Nat
  origin : Ipv4Addr
  deriving DecidableEq

structure As4Aggregator where
  asn : Nat
  origin : Ipv4Addr
  deriving DecidableEq

inductive Aggregator where
  | As2Aggregator (a : As2Aggregator)
  | As4Aggregator (a : As4Aggregator)
  deriving DecidableEq

def Aggregator.canBeOptional : Option Bool := some true
def Aggregator.canBeTransitive : Option Bool := some true
def Aggregator.canBePartial : Option Bool := none

structure Communities where
  communities : List Community
  deriving DecidableEq

def Communities.canBeOptional : Option Bool := some true
def Communities.canBeTransitive : Option Bool := some true
def Communities.canBePartial : Option Bool := none

structure ExtendedCommunities where
  communities : List ExtendedCommunity
  deriving DecidableEq

def ExtendedCommunities.canBeOptional : Option Bool := some true
def ExtendedCommunities.canBeTransitive : Option Bool := some true
def ExtendedCommunities.canBePartial : Option Bool := none

structure ExtendedCommunitiesIpv6 where
  communities : List ExtendedCommunityIpv6
  deriving DecidableEq

def ExtendedCommunitiesIpv6.canBeOptional : Option Bool := some true
def ExtendedCommunitiesIpv6.canBeTransitive : Option Bool := some true
def ExtendedCommunitiesIpv6.canBePartial : Option Bool := none

structure LargeCommunities where
  communities : List LargeCommunity
  deriving DecidableEq

def LargeCommunities.canBeOptional : Option Bool := some true
def LargeCommunities.canBeTransitive : Option Bool := some true
def LargeCommunities.canBePartial : Option Bool := none

structure Originator where
  id : Ipv4Addr
  deriving DecidableEq

def Originator.canBeOptional : Option Bool := some true
def Originator.canBeTransitive : Option Bool := some false
def Originator.canBePartial : Option Bool := some false

structure ClusterId where
  id : Ipv4Addr
  deriving DecidableEq

structure ClusterList where
  cluster_list : List ClusterId
  deriving DecidableEq

def ClusterList.canBeOptional : Option Bool := some true
def ClusterList.canBeTransitive : Option Bool := some false
def ClusterList.canBePartial : Option Bool := some false

inductive MpReach where
  | Ipv4Unicast (next_hop : IpAddr) (next_hop_local : Option Ipv6Addr)
      (nlri : List Ipv4UnicastAddress)
  | Ipv4Multicast (next_hop : IpAddr) (next_hop_local : Option Ipv6Addr)
      (nlri : List Ipv4MulticastAddress)
  | Ipv4NlriMplsLabels (next_hop : IpAddr) (next_hop_local : Option Ipv6Addr)
      (nlri : List Ipv4NlriMplsLabelsAddress)
  | Ipv4MplsVpnUnicast (next_hop : LabeledNextHop)
      (nlri : List Ipv4MplsVpnUnicastAddress)
  | Ipv6Unicast (next_hop_global : Ipv6Addr) (next_hop_local : Option Ipv6Addr)
      (nlri : List Ipv6UnicastAddress)
  | Ipv6Multicast (next_hop_global : Ipv6Addr) (next_hop_local : Option Ipv6Addr)
      (nlri : List Ipv6MulticastAddress)
  | Ipv6NlriMplsLabels (next_hop : IpAddr) (next_hop_local : Option Ipv6Addr)
      (nlri : List Ipv6NlriMplsLabelsAddress)
  | Ipv6MplsVpnUnicast (next_hop : LabeledNextHop)
      (nlri : List Ipv6MplsVpnUnicastAddress)
  | L2Evpn (next_hop : IpAddr) (nlri : List L2EvpnAddress)
  | RouteTargetMembership (next_hop : IpAddr)
      (nlri : List RouteTargetMembershipAddress)
  | BgpLs (next_hop : IpAddr) (nlri : List BgpLsNlri)
  | BgpLsVpn (next_hop : LabeledNextHop) (nlri : List BgpLsVpnNlri)
  | Unknown (afi : AddressFamily) (safi : SubsequentAddressFamily) (value : List Nat)
  deriving DecidableEq

def MpReach.address_type :
    MpReach → Except (AddressFamily × SubsequentAddressFamily) AddressType
  | .Ipv4Unicast _ _ _ => .ok .Ipv4Unicast
  | .Ipv4Multicast _ _ _ => .ok .Ipv4Multicast
  | .Ipv4NlriMplsLabels _ _ _ => .ok .Ipv4NlriMplsLabels
  | .Ipv4MplsVpnUnicast _ _ => .ok .Ipv4MplsLabeledVpn
  | .Ipv6Unicast _ _ _ => .ok .Ipv6Unicast
  | .Ipv6Multicast _ _ _ => .ok .Ipv6Multicast
  | .Ipv6NlriMplsLabels _ _ _ => .ok .Ipv6NlriMplsLabels
  | .Ipv6MplsVpnUnicast _ _ => .ok .Ipv6MplsLabeledVpn
  | .L2Evpn _ _ => .ok .L2VpnBgpEvpn
  | .RouteTargetMembership _ _ => .ok .RouteTargetConstrains
  | .BgpLs _ _ => .ok .BgpLs
  | .BgpLsVpn _ _ => .ok .BgpLsVpn
  | .Unknown afi safi _ => .error (afi, safi)

def MpReach.afi : MpReach → AddressFamily
  | .Ipv4Unicast _ _ _ => AddressType.Ipv4Unicast.address_family
  | .Ipv4Multicast _ _ _ => AddressType.Ipv4Multicast.address_family
  | .Ipv4NlriMplsLabels _ _ _ => AddressType.Ipv4NlriMplsLabels.address_family
  | .Ipv4MplsVpnUnicast _ _ => AddressType.Ipv4MplsLabeledVpn.address_family
  | .Ipv6Unicast _ _ _ => AddressType.Ipv6Unicast.address_family
  | .Ipv6Multicast _ _ _ => AddressType.Ipv6Multicast.address_family
  | .Ipv6NlriMplsLabels _ _ _ => AddressType.Ipv6NlriMplsLabels.address_family
  | .Ipv6MplsVpnUnicast _ _ => AddressType.Ipv6MplsLabeledVpn.address_family
  | .L2Evpn _ _ => AddressType.L2VpnBgpEvpn.address_family
  | .RouteTargetMembership _ _ => AddressType.RouteTargetConstrains.address_family
  | .BgpLs _ _ => AddressType.BgpLs.address_family
  | .BgpLsVpn _ _ => AddressType.BgpLsVpn.address_family
  | .Unknown afi _ _ => afi

def MpReach.safi : MpReach → SubsequentAddressFamily
  | .Ipv4Unicast _ _ _ => AddressType.Ipv4Unicast.subsequent_address_family
  | .Ipv4Multicast _ _ _ => AddressType.Ipv4Multicast.subsequent_address_family
  | .Ipv4NlriMplsLabels _ _ _ => AddressType.Ipv4NlriMplsLabels.subsequent_address_family
  | .Ipv4MplsVpnUnicast _ _ => AddressType.Ipv4MplsLabeledVpn.subsequent_address_family
  | .Ipv6Unicast _ _ _ => AddressType.Ipv6Unicast.subsequent_address_family
  | .Ipv6Multicast _ _ _ => AddressType.Ipv6Multicast.subsequent_address_family
  | .Ipv6NlriMplsLabels _ _ _ => AddressType.Ipv6NlriMplsLabels.subsequent_address_family
  | .Ipv6MplsVpnUnicast _ _ => AddressType.Ipv6MplsLabeledVpn.subsequent_address_family
  | .L2Evpn _ _ => AddressType.L2VpnBgpEvpn.subsequent_address_family
  | .RouteTargetMembership _ _ => AddressType.RouteTargetConstrains.subsequent_address_family
  | .BgpLs _ _ => AddressType.BgpLs.subsequent_address_family
  | .BgpLsVpn _ _ => AddressType.BgpLsVpn.subsequent_address_family
  | .Unknown _ safi _ => safi

def MpReach.canBeOptional : Option Bool := some true
def MpReach.canBeTransitive : Option Bool := some false
def MpReach.canBePartial : Option Bool := some false

inductive MpUnreach where
  | Ipv4Unicast (nlri : List Ipv4UnicastAddress)
  | Ipv4Multicast (nlri : List Ipv4MulticastAddress)
  | Ipv4NlriMplsLabels (nlri : List Ipv4NlriMplsLabelsAddress)
  | Ipv4MplsVpnUnicast (nlri : List Ipv4MplsVpnUnicastAddress)
  | Ipv6Unicast (nlri : List Ipv6UnicastAddress)
  | Ipv6Multicast (nlri : List Ipv6MulticastAddress)
  | Ipv6NlriMplsLabels (nlri : List Ipv6NlriMplsLabelsAddress)
  | Ipv6MplsVpnUnicast (nlri : List Ipv6MplsVpnUnicastAddress)
  | L2Evpn (nlri : List L2EvpnAddress)
  | RouteTargetMembership (nlri : List RouteTargetMembershipAddress)
  | BgpLs (nlri : List BgpLsNlri)
  | BgpLsVpn (nlri : List BgpLsVpnNlri)
  | Unknown (afi : AddressFamily) (safi : SubsequentAddressFamily) (nlri : List Nat)
  deriving DecidableEq

def MpUnreach.address_type :
    MpUnreach → Except (AddressFamily × SubsequentAddressFamily) AddressType
  | .Ipv4Unicast _ => .ok .Ipv4Unicast
  | .Ipv4Multicast _ => .ok .Ipv4Multicast
  | .Ipv4NlriMplsLabels _ => .ok .Ipv4NlriMplsLabels
  | .Ipv4MplsVpnUnicast _ => .ok .Ipv4MplsLabeledVpn
  | .Ipv6Unicast _ => .ok .Ipv6Unicast
  | .Ipv6Multicast _ => .ok .Ipv6Multicast
  | .Ipv6NlriMplsLabels _ => .ok .Ipv6NlriMplsLabels
  | .Ipv6MplsVpnUnicast _ => .ok .Ipv6MplsLabeledVpn
  | .L2Evpn _ => .ok .L2VpnBgpEvpn
  | .RouteTargetMembership _ => .ok .RouteTargetConstrains
  | .BgpLs _ => .ok .BgpLs
  | .BgpLsVpn _ => .ok .BgpLsVpn
  | .Unknown afi safi _ => .error (afi, safi)

def MpUnreach.afi : MpUnreach → AddressFamily
  | .Ipv4Unicast _ => AddressType.Ipv4Unicast.address_family
  | .Ipv4Multicast _ => AddressType.Ipv4Multicast.address_family
  | .Ipv4NlriMplsLabels _ => AddressType.Ipv4NlriMplsLabels.address_family
  | .Ipv4MplsVpnUnicast _ => AddressType.Ipv4MplsLabeledVpn.address_family
  | .Ipv6Unicast _ => AddressType.Ipv6Unicast.address_family
  | .Ipv6Multicast _ => AddressType.Ipv6Multicast.address_family
  | .Ipv6NlriMplsLabels _ => AddressType.Ipv6NlriMplsLabels.address_family
  | .Ipv6MplsVpnUnicast _ => AddressType.Ipv6MplsLabeledVpn.address_family
  | .L2Evpn _ => AddressType.L2VpnBgpEvpn.address_family
  | .RouteTargetMembership _ => AddressType.RouteTargetConstrains.address_family
  | .BgpLs _ => AddressType.BgpLs.address_family
  | .BgpLsVpn _ => AddressType.BgpLsVpn.address_family
  | .Unknown afi _ _ => afi

def MpUnreach.safi : MpUnreach → SubsequentAddressFamily
  | .Ipv4Unicast _ => AddressType.Ipv4Unicast.subsequent_address_family
  | .Ipv4Multicast _ => AddressType.Ipv4Multicast.subsequent_address_family
  | .Ipv4NlriMplsLabels _ => AddressType.Ipv4NlriMplsLabels.subsequent_address_family
  | .Ipv4MplsVpnUnicast _ => AddressType.Ipv4MplsLabeledVpn.subsequent_address_family
  | .Ipv6Unicast _ => AddressType.Ipv6Unicast.subsequent_address_family
  | .Ipv6Multicast _ => AddressType.Ipv6Multicast.subsequent_address_family
  | .Ipv6NlriMplsLabels _ => AddressType.Ipv6NlriMplsLabels.subsequent_address_family
  | .Ipv6MplsVpnUnicast _ => AddressType.Ipv6MplsLabeledVpn.subsequent_address_family
  | .L2Evpn _ => AddressType.L2VpnBgpEvpn.subsequent_address_family
  | .RouteTargetMembership _ => AddressType.RouteTargetConstrains.subsequent_address_family
  | .BgpLs _ => AddressType.BgpLs.subsequent_address_family
  | .BgpLsVpn _ => AddressType.BgpLsVpn.subsequent_address_family
  | .Unknown _ safi _ => safi

def MpUnreach.canBeOptional : Option Bool := some true
def MpUnreach.canBeTransitive : Option Bool := some false
def MpUnreach.canBePartial : Option Bool := some false

structure UnknownAttribute where
  code : Nat
  value : List Nat
  deriving DecidableEq

def UnknownAttribute.canBeOptional : Option Bool := none
def UnknownAttribute.canBeTransitive : Option Bool := none
def UnknownAttribute.canBePartial : Option Bool := none

structure OnlyToCustomer where
  asn : Nat
  deriving DecidableEq

def OnlyToCustomer.canBeOptional : Option Bool := some true
def OnlyToCustomer.canBeTransitive : Option Bool := some true
def OnlyToCustomer.canBePartial : Option Bool := some false

inductive Aigp where
  | AccumulatedIgpMetric (metric : Nat)
  deriving DecidableEq

def Aigp.canBeOptional : Option Bool := some true
def Aigp.canBeTransitive : Option Bool := some false
def Aigp.canBePartial : Option Bool := some false

/-- Modelled from the spec: the BGP-LS attribute body
(`path_attribute/bgp_ls.rs`) is not among the provided sources; spec §3
lists `BgpLsAttribute` as one more tagged attribute value. Its
properties triple is fixed by the source's dispatch tables. -/
structure BgpLsAttribute where
  raw : List Nat
  deriving DecidableEq

def BgpLsAttribute.canBeOptional : Option Bool := some true
def BgpLsAttribute.canBeTransitive : Option Bool := none
def BgpLsAttribute.canBePartial : Option Bool := none

/-- Modelled from the spec: the BGP Prefix-SID attribute body is not
among the provided sources; spec §3 lists `PrefixSegmentIdentifier` as
one more tagged attribute value. -/
structure PrefixSegmentIdentifier where
  raw : List Nat
  deriving DecidableEq

def PrefixSegmentIdentifier.canBeOptional : Option Bool := some true
def PrefixSegmentIdentifier.canBeTransitive : Option Bool := some true
def PrefixSegmentIdentifier.canBePartial : Option Bool := none

inductive PathAttributeValue where
  | Origin (v : Origin)
  | AsPath (v : AsPath)
  | As4Path (v : As4Path)
  | NextHop (v : NextHop)
  | MultiExitDiscriminator (v : MultiExitDiscriminator)
  | LocalPreference (v : LocalPreference)
  | AtomicAggregate (v : AtomicAggregate)
  | Aggregator (v : Aggregator)
  | Communities (v : Communities)
  | ExtendedCommunities (v : ExtendedCommunities)
  | ExtendedCommunitiesIpv6 (v : ExtendedCommunitiesIpv6)
  | LargeCommunities (v : LargeCommunities)
  | Originator (v : Originator)
  | ClusterList (v : ClusterList)
  | MpReach (v : MpReach)
  | MpUnreach (v : MpUnreach)
  | BgpLs (v : BgpLsAttribute)
  | OnlyToCustomer (v : OnlyToCustomer)
  | Aigp (v : Aigp)
  | PrefixSegmentIdentifier (v : PrefixSegmentIdentifier)
  | UnknownAttribute (v : UnknownAttribute)
  deriving DecidableEq

/-- `PathAttributeValue::can_be_optional`.  The `UnknownAttribute` arm
delegates to `UnknownAttribute::can_be_partial` exactly as the source
does (both constants are `None`, so the quirk is unobservable). -/
def PathAttributeValue.canBeOptional : PathAttributeValue → Option Bool
  | .Origin _ => Origin.canBeOptional
  | .AsPath _ => AsPath.canBeOptional
  | .As4Path _ => As4Path.canBeOptional
  | .NextHop _ => NextHop.canBeOptional
  | .MultiExitDiscriminator _ => MultiExitDiscriminator.canBeOptional
  | .LocalPreference _ => LocalPreference.canBeOptional
  | .AtomicAggregate _ => AtomicAggregate.canBeOptional
  | .Aggregator _ => Aggregator.canBeOptional
  | .Communities _ => Communities.canBeOptional
  | .ExtendedCommunities _ => ExtendedCommunities.canBeOptional
  | .ExtendedCommunitiesIpv6 _ => ExtendedCommunitiesIpv6.canBeOptional
  | .LargeCommunities _ => LargeCommunities.canBeOptional
  | .Originator _ => Originator.canBeOptional
  | .ClusterList _ => ClusterList.canBeOptional
  | .MpReach _ => MpReach.canBeOptional
  | .MpUnreach _ => MpUnreach.canBeOptional
  | .BgpLs _ => BgpLsAttribute.canBeOptional
  | .OnlyToCustomer _ => OnlyToCustomer.canBeOptional
  | .Aigp _ => Aigp.canBeOptional
  | .PrefixSegmentIdentifier _ => PrefixSegmentIdentifier.canBeOptional
  | .UnknownAttribute _ => UnknownAttribute.canBePartial

def PathAttributeValue.canBeTransitive : PathAttributeValue → Option Bool
  | .Origin _ => Origin.canBeTransitive
  | .AsPath _ => AsPath.canBeTransitive
  | .As4Path _ => As4Path.canBeTransitive
  | .NextHop _ => NextHop.canBeTransitive
  | .MultiExitDiscriminator _ => MultiExitDiscriminator.canBeTransitive
  | .LocalPreference _ => LocalPreference.canBeTransitive
  | .AtomicAggregate _ => AtomicAggregate.canBeTransitive
  | .Aggregator _ => Aggregator.canBeTransitive
  | .Communities _ => Communities.canBeTransitive
  | .ExtendedCommunities _ => ExtendedCommunities.canBeTransitive
  | .ExtendedCommunitiesIpv6 _ => ExtendedCommunitiesIpv6.canBeTransitive
  | .LargeCommunities _ => LargeCommunities.canBeTransitive
  | .Originator _ => Originator.canBeTransitive
  | .ClusterList _ => ClusterList.canBeTransitive
  | .MpReach _ => MpReach.canBeTransitive
  | .MpUnreach _ => MpUnreach.canBeTransitive
  | .BgpLs _ => BgpLsAttribute.canBeTransitive
  | .OnlyToCustomer _ => OnlyToCustomer.canBeTransitive
  | .Aigp _ => Aigp.canBeTransitive
  | .PrefixSegmentIdentifier _ => PrefixSegmentIdentifier.canBeTransitive
  | .UnknownAttribute _ => UnknownAttribute.canBeTransitive

def PathAttributeValue.canBePartial : PathAttributeValue → Option Bool
  | .Origin _ => Origin.canBePartial
  | .AsPath _ => AsPath.canBePartial
  | .As4Path _ => As4Path.canBePartial
  | .NextHop _ => NextHop.canBePartial
  | .MultiExitDiscriminator _ => MultiExitDiscriminator.canBePartial
  | .LocalPreference _ => LocalPreference.canBePartial
  | .AtomicAggregate _ => AtomicAggregate.canBePartial
  | .Aggregator _ => Aggregator.canBePartial
  | .Communities _ => Communities.canBePartial
  | .ExtendedCommunities _ => ExtendedCommunities.canBePartial
  | .ExtendedCommunitiesIpv6 _ => ExtendedCommunitiesIpv6.canBePartial
  | .LargeCommunities _ => LargeCommunities.canBePartial
  | .Originator _ => Originator.canBePartial
  | .ClusterList _ => ClusterList.canBePartial
  | .MpReach _ => MpReach.canBePartial
  | .MpUnreach _ => MpUnreach.canBePartial
  | .BgpLs _ => BgpLsAttribute.canBePartial
  | .OnlyToCustomer _ => OnlyToCustomer.canBePartial
  | .Aigp _ => Aigp.canBePartial
  | .PrefixSegmentIdentifier _ => PrefixSegmentIdentifier.canBePartial
  | .UnknownAttribute _ => UnknownAttribute.canBePartial

inductive InvalidPathAttribute where
  | InvalidOptionalFlagValue (b : Bool)
  | InvalidTransitiveFlagValue (b : Bool)
  | InvalidPartialFlagValue (b : Bool)
  deriving DecidableEq

/-- `PathAttribute` (the `partial` field is renamed `partialFlag`:
`partial` is a Lean keyword). -/
structure PathAttribute where
  optional : Bool
  transitive : Bool
  partialFlag : Bool
  extended_length : Bool
  value : PathAttributeValue
  deriving DecidableEq

/-- `PathAttribute::from`: the flag-matrix validating constructor.
Each check is `value.can_be_X().map(|x| x != flag).unwrap_or(false)`
in the source. -/
def PathAttribute.from (optional transitive partialFlag extended_length : Bool)
    (value : PathAttributeValue) :
    Except (PathAttributeValue × InvalidPathAttribute) PathAttribute :=
  if (value.canBeOptional.map (fun x => x != optional)).getD false then
    .error (value, .InvalidOptionalFlagValue optional)
  else if (value.canBeTransitive.map (fun x => x != transitive)).getD false then
    .error (value, .InvalidTransitiveFlagValue transitive)
  else if (value.canBePartial.map (fun x => x != partialFlag)).getD false then
    .error (value, .InvalidPartialFlagValue partialFlag)
  else
    .ok ⟨optional, transitive, partialFlag, extended_length, value⟩

/-! ## Shared wire helpers

Big-endian readers over byte lists (each byte a `Nat` below 256), the
embedding of nom's `be_u8`/`be_u16`/`be_u32`.  A read returns the value
and the unconsumed tail, or `none` when the input is too short. -/

def be_u8 : List Nat → Option (Nat × List Nat)
  | [] => none
  | b :: rest => some (b, rest)

def be_u16 : List Nat → Option (Nat × List Nat)
  | b0 :: b1 :: rest => some (b0 * 256 + b1, rest)
  | _ => none

def be_u32 : List Nat → Option (Nat × List Nat)
  | b0 :: b1 :: b2 :: b3 :: rest =>
      some (((b0 * 256 + b1) * 256 + b2) * 256 + b3, rest)
  | _ => none

/-- The two big-endian octets `write_u16::<NetworkEndian>` emits for a
`usize` cast to `u16` (the cast truncates modulo 2^16). -/
def u16be (n : Nat) : List Nat := [n % 65536 / 256, n % 256]

/-! ## BGP message serializer

From `crates/bgp-pkt/src/wire/serializer/mod.rs`.  The per-variant body
serializers (`open.rs`, `update.rs`, …) are not among the provided
sources; modelled from the spec (§4.1: for every PDU `size_of` equals
the octets a successful `encode` writes), each variant carries the
octet string its body writer emits, so `body.len()` is the body's
`len()` and writing the body appends exactly those octets. -/

def BGP_MIN_MESSAGE_LENGTH : Nat := 19
def BGP_MAX_MESSAGE_LENGTH : Nat := 4096

inductive BgpMessageType where
  | Open
  | Update
  | Notification
  | KeepAlive
  | RouteRefresh
  deriving DecidableEq

/-- IANA type codes (RFC 4271, RFC 2918), the `u8` each variant
converts into. -/
def BgpMessageType.code : BgpMessageType → Nat
  | .Open => 1
  | .Update => 2
  | .Notification => 3
  | .KeepAlive => 4
  | .RouteRefresh => 5

inductive BgpMessage where
  | Open (body : List Nat)
  | Update (body : List Nat)
  | Notification (body : List Nat)
  | KeepAlive
  | RouteRefresh (body : List Nat)
  deriving DecidableEq

def BgpMessage.get_type : BgpMessage → BgpMessageType
  | .Open _ => .Open
  | .Update _ => .Update
  | .Notification _ => .Notification
  | .KeepAlive => .KeepAlive
  | .RouteRefresh _ => .RouteRefresh

/-- `BgpMessage::len`: `BASE_LENGTH` (19) plus the body length
(`KeepAlive` has no body). -/
def BgpMessage.len : BgpMessage → Nat
  | .Open body => BGP_MIN_MESSAGE_LENGTH + body.length
  | .Update body => BGP_MIN_MESSAGE_LENGTH + body.length
  | .Notification body => BGP_MIN_MESSAGE_LENGTH + body.length
  | .KeepAlive => BGP_MIN_MESSAGE_LENGTH + 0
  | .RouteRefresh body => BGP_MIN_MESSAGE_LENGTH + body.length

inductive BgpMessageWritingError where
  /-- The size of written message is larger than allowed size: 4,096
  for open and keepalive and 2^16 for the rest (doc comment carried
  over from the source). -/
  | BgpMessageLengthOverflow (len : Nat)
  deriving DecidableEq

/-- The 16-octet all-ones marker (`u128::MAX.to_be_bytes()`). -/
def bgpMarker : List Nat := List.replicate 16 255

/-- `BgpMessage::write`: the length guard is applied to `Open` and
`KeepAlive` only — exactly as in the source, whose match arm for
`Update | Notification | RouteRefresh` is empty — then the marker, the
16-bit total length (`len as u16`), the type code, and the body are
emitted. -/
def BgpMessage.write (m : BgpMessage) : Except BgpMessageWritingError (List Nat) :=
  let len := m.len
  match m with
  | .Open body =>
      if len > BGP_MAX_MESSAGE_LENGTH then
        .error (.BgpMessageLengthOverflow len)
      else
        .ok (bgpMarker ++ u16be len ++ [m.get_type.code] ++ body)
  | .KeepAlive =>
      if len > BGP_MAX_MESSAGE_LENGTH then
        .error (.BgpMessageLengthOverflow len)
      else
        .ok (bgpMarker ++ u16be len ++ [m.get_type.code])
  | .Update body => .ok (bgpMarker ++ u16be len ++ [m.get_type.code] ++ body)
  | .Notification body => .ok (bgpMarker ++ u16be len ++ [m.get_type.code] ++ body)
  | .RouteRefresh body => .ok (bgpMarker ++ u16be len ++ [m.get_type.code] ++ body)

/-! ## BMP v4 route monitoring

From `crates/bmp-pkt/src/v4.rs`.  The per-peer header type lives in the
crate's root module, which is not among the provided sources; modelled
from the spec (§3) as an uninterpreted record the builders pass
through.  Rust `String` values appear as their UTF-8 octet lists, so
`str.len()` is the list length; `Vec<u16>` and capabilities appear as
`Nat` lists / values. -/

structure PeerHeader where
  raw : List Nat
  deriving DecidableEq

structure PathMarking where
  path_status : Nat
  reason_code : Option Nat
  deriving DecidableEq

inductive BmpV4RouteMonitoringTlvValue where
  | BgpUpdatePdu (m : BgpMessage)
  | VrfTableName (s : List Nat)
  | GroupTlv (v : List Nat)
  | StatelessParsing (capability : Nat)
  | PathMarking (p : PathMarking)
  | Unknown (code : Nat) (value : List Nat)
  deriving DecidableEq

inductive BmpV4RouteMonitoringTlvError where
  | BadGroupTlvIndex (index : Nat)
  | BadBgpMessageType (t : BgpMessageType)
  | VrfTableNameStringIsTooLong (len : Nat)
  deriving DecidableEq

structure BmpV4RouteMonitoringTlv where
  index : Nat
  value : BmpV4RouteMonitoringTlvValue
  deriving DecidableEq

/-- `BmpV4RouteMonitoringTlv::build`.  `index` is a `u16`; the source's
`index.leading_ones() == 0` (first bit must be one, the G flag) holds
exactly when the 16-bit value is below `0x8000`. -/
def BmpV4RouteMonitoringTlv.build (index : Nat) (value : BmpV4RouteMonitoringTlvValue) :
    Except BmpV4RouteMonitoringTlvError BmpV4RouteMonitoringTlv :=
  match value with
  | .GroupTlv _ =>
      if index % 65536 < 32768 then
        .error (.BadGroupTlvIndex index)
      else
        .ok ⟨index, value⟩
  | .VrfTableName s =>
      if s.length > 255 then
        .error (.VrfTableNameStringIsTooLong s.length)
      else
        .ok ⟨index, value⟩
  | .BgpUpdatePdu update_pdu =>
      if update_pdu.get_type != BgpMessageType.Update then
        .error (.BadBgpMessageType update_pdu.get_type)
      else
        .ok ⟨index, value⟩
  | _ => .ok ⟨index, value⟩

inductive BmpV4RouteMonitoringError where
  | TlvError (e : BmpV4RouteMonitoringTlvError)
  deriving DecidableEq

structure BmpV4RouteMonitoringMessage where
  peer_header : PeerHeader
  update_pdu : BmpV4RouteMonitoringTlv
  tlvs : List BmpV4RouteMonitoringTlv
  deriving DecidableEq

/-- `BmpV4RouteMonitoringMessage::build`: wraps the update PDU in the
required TLV at index 0 and propagates the TLV builder's error. -/
def BmpV4RouteMonitoringMessage.build (peer_header : PeerHeader)
    (update_pdu : BgpMessage) (tlvs : List BmpV4RouteMonitoringTlv) :
    Except BmpV4RouteMonitoringError BmpV4RouteMonitoringMessage :=
  match BmpV4RouteMonitoringTlv.build 0 (.BgpUpdatePdu update_pdu) with
  | .error e => .error (.TlvError e)
  | .ok tlv => .ok ⟨peer_header, tlv, tlvs⟩

/-- `BmpV4RouteMonitoringMessage::update_message`.  The source's
`unreachable!()` arm (any TLV value other than `BgpUpdatePdu`) is
modelled as `none`. -/
def BmpV4RouteMonitoringMessage.update_message
    (m : BmpV4RouteMonitoringMessage) : Option BgpMessage :=
  match m.update_pdu.value with
  | .BgpUpdatePdu update => some update
  | _ => none

/-! ## Legacy BGP path-attribute deserializer

From `netgauze-bgp-pkt/src/serde/deserializer/path_attribute.rs`.
Located-error spans are dropped (no claim depends on them); nom's
generic failures collapse into a `NomError` constructor per error
enum.  The enum of attribute type codes comes from the crate's `iana`
module, which is not among the provided sources. -/

inductive PathAttributeLength where
  | U8 (len : Nat)
  | U16 (len : Nat)
  deriving DecidableEq

/-- `check_length`: compares the tagged length against an expected
value (the `U8` arm goes through a lossless cast to `u16`). -/
def check_length : PathAttributeLength → Nat → Bool
  | .U8 len, expected => len == expected
  | .U16 len, expected => len == expected

/-- Modelled from the spec: the `iana` module defining
`PathAttributeType` is not among the provided sources.  The variants
and codes are the IANA path-attribute registry entries for the
attribute kinds the spec lists in §3 (RFC 4271, RFC 4760, RFC 6793,
RFC 4456, RFC 7311, RFC 9234, …). -/
inductive PathAttributeType where
  | Origin
  | ASPath
  | NextHop
  | MultiExitDiscriminator
  | LocalPreference
  | AtomicAggregate
  | Aggregator
  | Communities
  | OriginatorId
  | ClusterList
  | MpReachNlri
  | MpUnreachNlri
  | ExtendedCommunities
  | AS4Path
  | AS4Aggregator
  | ExtendedCommunitiesIpv6
  | AccumulatedIgp
  | BgpLsAttribute
  | LargeCommunities
  | OnlyToCustomer
  | BgpPrefixSid
  deriving DecidableEq

def PathAttributeType.tryFrom (code : Nat) : Option PathAttributeType :=
  match code with
  | 1 => some .Origin
  | 2 => some .ASPath
  | 3 => some .NextHop
  | 4 => some .MultiExitDiscriminator
  | 5 => some .LocalPreference
  | 6 => some .AtomicAggregate
  | 7 => some .Aggregator
  | 8 => some .Communities
  | 9 => some .OriginatorId
  | 10 => some .ClusterList
  | 14 => some .MpReachNlri
  | 15 => some .MpUnreachNlri
  | 16 => some .ExtendedCommunities
  | 17 => some .AS4Path
  | 18 => some .AS4Aggregator
  | 25 => some .ExtendedCommunitiesIpv6
  | 26 => some .AccumulatedIgp
  | 29 => some .BgpLsAttribute
  | 32 => some .LargeCommunities
  | 35 => some .OnlyToCustomer
  | 40 => some .BgpPrefixSid
  | _ => none

inductive OriginParsingError where
  | NomError
  | InvalidOriginLength (len : PathAttributeLength)
  | UndefinedOrigin (v : Nat)
  deriving DecidableEq

/-- `Origin::from_wire`: the 8- or 16-bit attribute length (selected by
the extended-length flag) must be 1, then the single origin octet must
be a defined variant. -/
def Origin.from_wire (buf : List Nat) (extended_length : Bool) :
    Except OriginParsingError (Origin × List Nat) :=
  let lengthRead : Option (PathAttributeLength × List Nat) :=
    if extended_length then
      (be_u16 buf).map (fun p => (.U16 p.1, p.2))
    else
      (be_u8 buf).map (fun p => (.U8 p.1, p.2))
  match lengthRead with
  | none => .error .NomError
  | some (length, buf) =>
    if !check_length length 1 then
      .error (.InvalidOriginLength length)
    else
      match be_u8 buf with
      | none => .error .NomError
      | some (v, buf) =>
        match v with
        | 0 => .ok (.IGP, buf)
        | 1 => .ok (.EGP, buf)
        | 2 => .ok (.Incomplete, buf)
        | _ => .error (.UndefinedOrigin v)

inductive AsPathParsingError where
  | NomError
  | UndefinedAsPathSegmentType (v : Nat)
  deriving DecidableEq

/-- `AsPathSegmentType::try_from` (1 = set, 2 = sequence). -/
def AsPathSegmentType.tryFrom (v : Nat) : Option AsPathSegmentType :=
  match v with
  | 1 => some .AsSet
  | 2 => some .AsSequence
  | _ => none

/-- `nom::multi::length_count(be_u8, be_u16)`: a count octet followed by
that many 16-bit values. -/
def readNU16s : Nat → List Nat → Option (List Nat × List Nat)
  | 0, buf => some ([], buf)
  | n + 1, buf =>
    match be_u16 buf with
    | none => none
    | some (v, rest) =>
      match readNU16s n rest with
      | none => none
      | some (vs, rest) => some (v :: vs, rest)

def readNU32s : Nat → List Nat → Option (List Nat × List Nat)
  | 0, buf => some ([], buf)
  | n + 1, buf =>
    match be_u32 buf with
    | none => none
    | some (v, rest) =>
      match readNU32s n rest with
      | none => none
      | some (vs, rest) => some (v :: vs, rest)

/-- `As2PathSegment::from_wire`: a segment-type octet, a count octet,
then count 2-octet AS numbers. -/
def As2PathSegment.from_wire (buf : List Nat) :
    Except AsPathParsingError (As2PathSegment × List Nat) :=
  match be_u8 buf with
  | none => .error .NomError
  | some (t, buf) =>
    match AsPathSegmentType.tryFrom t with
    | none => .error (.UndefinedAsPathSegmentType t)
    | some segment_type =>
      match be_u8 buf with
      | none => .error .NomError
      | some (count, buf) =>
        match readNU16s count buf with
        | none => .error .NomError
        | some (as_numbers, buf) => .ok (⟨segment_type, as_numbers⟩, buf)

/-- `As4PathSegment::from_wire`: a segment-type octet, a count octet,
then count 4-octet AS numbers. -/
def As4PathSegment.from_wire (buf : List Nat) :
    Except AsPathParsingError (As4PathSegment × List Nat) :=
  match be_u8 buf with
  | none => .error .NomError
  | some (t, buf) =>
    match AsPathSegmentType.tryFrom t with
    | none => .error (.UndefinedAsPathSegmentType t)
    | some segment_type =>
      match be_u8 buf with
      | none => .error .NomError
      | some (count, buf) =>
        match readNU32s count buf with
        | none => .error .NomError
        | some (as_numbers, buf) => .ok (⟨segment_type, as_numbers⟩, buf)

/-- `parse_till_empty` specialised to 2-octet segments: repeat the
segment parser until the sub-buffer is exhausted.  The fuel argument
makes the recursion structural; a successful segment parse always
consumes at least one octet, so fuel `buf.length` never runs out. -/
def parseTillEmptyAs2 (fuel : Nat) (buf : List Nat) :
    Except AsPathParsingError (List As2PathSegment) :=
  match buf with
  | [] => .ok []
  | _ :: _ =>
    match fuel with
    | 0 => .error .NomError
    | fuel + 1 =>
      match As2PathSegment.from_wire buf with
      | .error e => .error e
      | .ok (seg, rest) =>
        match parseTillEmptyAs2 fuel rest with
        | .error e => .error e
        | .ok segs => .ok (seg :: segs)

def parseTillEmptyAs4 (fuel : Nat) (buf : List Nat) :
    Except AsPathParsingError (List As4PathSegment) :=
  match buf with
  | [] => .ok []
  | _ :: _ =>
    match fuel with
    | 0 => .error .NomError
    | fuel + 1 =>
      match As4PathSegment.from_wire buf with
      | .error e => .error e
      | .ok (seg, rest) =>
        match parseTillEmptyAs4 fuel rest with
        | .error e => .error e
        | .ok segs => .ok (seg :: segs)

/-- `nom::multi::length_data(be_u8 / be_u16)`: read a length, then
split off that many octets. -/
def lengthData (extended_length : Bool) (buf : List Nat) :
    Option (List Nat × List Nat) :=
  match (if extended_length then be_u16 buf else be_u8 buf) with
  | none => none
  | some (n, rest) =>
    if rest.length < n then none else some (rest.take n, rest.drop n)

/-- `ASPath::from_wire`: a length-delimited body, parsed as 4-octet
segments when `asn4` is set and as 2-octet segments otherwise. -/
def AsPath.from_wire (buf : List Nat) (extended_length asn4 : Bool) :
    Except AsPathParsingError (AsPath × List Nat) :=
  match lengthData extended_length buf with
  | none => .error .NomError
  | some (segments_buf, buf) =>
    if asn4 then
      match parseTillEmptyAs4 segments_buf.length segments_buf with
      | .error e => .error e
      | .ok segments => .ok (.As4PathSegments segments, buf)
    else
      match parseTillEmptyAs2 segments_buf.length segments_buf with
      | .error e => .error e
      | .ok segments => .ok (.As2PathSegments segments, buf)

/-- `AS4Path::from_wire`: a length-delimited body of 4-octet segments,
with no `asn4` input at all. -/
def As4Path.from_wire (buf : List Nat) (extended_length : Bool) :
    Except AsPathParsingError (As4Path × List Nat) :=
  match lengthData extended_length buf with
  | none => .error .NomError
  | some (segments_buf, buf) =>
    match parseTillEmptyAs4 segments_buf.length segments_buf with
    | .error e => .error e
    | .ok segments => .ok (⟨segments⟩, buf)

inductive NextHopParsingError where
  | NomError
  | InvalidNextHopLength (len : PathAttributeLength)
  deriving DecidableEq

/-- `NextHop::from_wire`: the attribute length must be 4, then a
4-octet IPv4 address. -/
def NextHop.from_wire (buf : List Nat) (extended_length : Bool) :
    Except NextHopParsingError (NextHop × List Nat) :=
  let lengthRead : Option (PathAttributeLength × List Nat) :=
    if extended_length then
      (be_u16 buf).map (fun p => (.U16 p.1, p.2))
    else
      (be_u8 buf).map (fun p => (.U8 p.1, p.2))
  match lengthRead with
  | none => .error .NomError
  | some (length, buf) =>
    if !check_length length 4 then
      .error (.InvalidNextHopLength length)
    else
      match be_u32 buf with
      | none => .error .NomError
      | some (address, buf) => .ok (⟨address⟩, buf)

inductive PathAttributeParsingError where
  | NomError
  | OriginError (e : OriginParsingError)
  | AsPathError (e : AsPathParsingError)
  | NextHopError (e : NextHopParsingError)
  deriving DecidableEq

/-- The legacy crate's `PathAttribute` enum, as far as the deserializer
can produce it (`partial` is renamed `partialFlag`: `partial` is a Lean
keyword). -/
inductive SerdePathAttribute where
  | Origin (extended_length : Bool) (value : Origin)
  | ASPath (extended_length : Bool) (value : AsPath)
  | AS4Path (partialFlag : Bool) (extended_length : Bool) (value : As4Path)
  | NextHop (extended_length : Bool) (value : NextHop)
  deriving DecidableEq

/-- Outcome of running a parser that may hit `todo!()`: the
`reachesTodo` constructor models the panic the macro raises. -/
inductive ParseOutcome (ε α : Type) where
  | ok (rest : List Nat) (v : α)
  | err (e : ε)
  | reachesTodo
  deriving DecidableEq

/-- `PathAttribute::from_wire` of the legacy deserializer: flags octet,
type-code octet, then a dispatch that only handles `Origin`, `ASPath`,
`AS4Path` and `NextHop`; every other outcome of
`PathAttributeType::try_from` — any other defined code, and undefined
codes too — falls into the source's `_ => todo!()` arm. -/
def SerdePathAttribute.from_wire (buf : List Nat) (asn4 : Bool) :
    ParseOutcome PathAttributeParsingError SerdePathAttribute :=
  match be_u8 buf with
  | none => .err .NomError
  | some (attributes, buf) =>
    match be_u8 buf with
    | none => .err .NomError
    | some (code, buf) =>
      let _optional := attributes &&& 128 == 128
      let _transitive := attributes &&& 64 == 64
      let partialFlag := attributes &&& 32 == 32
      let extended_length := attributes &&& 16 == 16
      match PathAttributeType.tryFrom code with
      | some .Origin =>
        match Origin.from_wire buf extended_length with
        | .error e => .err (.OriginError e)
        | .ok (value, buf) => .ok buf (.Origin extended_length value)
      | some .ASPath =>
        match AsPath.from_wire buf extended_length asn4 with
        | .error e => .err (.AsPathError e)
        | .ok (value, buf) => .ok buf (.ASPath extended_length value)
      | some .AS4Path =>
        match As4Path.from_wire buf extended_length with
        | .error e => .err (.AsPathError e)
        | .ok (value, buf) => .ok buf (.AS4Path partialFlag extended_length value)
      | some .NextHop =>
        match NextHop.from_wire buf extended_length with
        | .error e => .err (.NextHopError e)
        | .ok (value, buf) => .ok buf (.NextHop extended_length value)
      | _ => .reachesTodo

namespace Flow

/-! ## NetFlow v9 decoder

Modelled from the spec: the NetFlow v9 wire deserializer
(`crates/flow-pkt/src/wire/deserializer`) is not among the provided
sources — only its test-suite
(`crates/flow-pkt/src/wire/tests/netflow.rs`) is.  The model follows
spec §3 ("NetFlow v9 / IPFIX" data model), §4.1 ("Framing and length",
"Padding") and §4.2 ("Edge cases"):

* a packet is a 20-octet header (version 9, record count, sysUpTime,
  unix seconds, sequence, source id) followed by sets;
* each set carries a 16-bit set id (0 = template, 1 = options
  template, ≥ 256 = data) and a 16-bit byte length including the
  4-octet set header; children are restricted to the resulting
  sub-slice;
* 0..3 trailing zero octets of a set are accepted as padding; a
  non-zero padding octet fails with `InvalidPaddingValue` at the
  offending octet's absolute offset;
* a zero-length field specifier is a malformed template and must fail;
  a data set whose body is not records-plus-padding must fail;
* data sets are decoded against the mutable template cache, keyed by
  template id, installed/replaced by template sets earlier in the
  stream; field values are kept as raw octet strings (their typed
  interpretation is irrelevant to the claims under verification).

Every error carries the absolute byte offset at which it was detected
(spec §7). -/

inductive FlowError where
  | Truncated
  | InvalidVersion (v : Nat)
  | InvalidSetLength (len : Nat)
  | InvalidSetId (id : Nat)
  | ZeroLengthFieldSpecifier (ie : Nat)
  | InvalidPaddingValue (b : Nat)
  | UnknownTemplate (id : Nat)
  | TemplateMismatch (id : Nat) (bodyLen : Nat)
  deriving DecidableEq

abbrev FlowResult (α : Type) := Except (Nat × FlowError) α

structure FieldSpecifier where
  ie : Nat
  length : Nat
  deriving DecidableEq

structure TemplateRecord where
  id : Nat
  field_specifiers : List FieldSpecifier
  deriving DecidableEq

structure OptionsTemplateRecord where
  id : Nat
  scope_field_specifiers : List FieldSpecifier
  field_specifiers : List FieldSpecifier
  deriving DecidableEq

structure DataField where
  ie : Nat
  raw : List Nat
  deriving DecidableEq

structure DataRecord where
  scope_fields : List DataField
  fields : List DataField
  deriving DecidableEq

inductive FlowSet where
  | Template (records : List TemplateRecord)
  | OptionsTemplate (records : List OptionsTemplateRecord)
  | Data (id : Nat) (records : List DataRecord)
  deriving DecidableEq

structure NetFlowV9Packet where
  sys_up_time : Nat
  unix_time : Nat
  sequence_number : Nat
  source_id : Nat
  sets : List FlowSet
  deriving DecidableEq

/-- The template cache: template id to (scope fields, fields), newest
installation first. -/
abbrev TemplatesMap := List (Nat × (List FieldSpecifier × List FieldSpecifier))

/-- `install`: inserts or replaces, silently and immediately. -/
def installTemplate (m : TemplatesMap) (id : Nat)
    (entry : List FieldSpecifier × List FieldSpecifier) : TemplatesMap :=
  (id, entry) :: m.filter (fun p => p.1 != id)

/-- Split off exactly `n` octets or fail with `Truncated` at `off`. -/
def takeExact (n off : Nat) (buf : List Nat) :
    FlowResult (List Nat × List Nat) :=
  if buf.length < n then .error (off, .Truncated)
  else .ok (buf.take n, buf.drop n)

/-- Field specifiers: 16-bit information element, 16-bit length, until
the sub-slice is exhausted; a zero length is a malformed template. -/
def parseFieldSpecs (off : Nat) (buf : List Nat) :
    FlowResult (List FieldSpecifier) :=
  match buf with
  | [] => .ok []
  | ieHi :: ieLo :: lenHi :: lenLo :: rest =>
    let ie := ieHi * 256 + ieLo
    let len := lenHi * 256 + lenLo
    if len == 0 then .error (off, .ZeroLengthFieldSpecifier ie)
    else
      match parseFieldSpecs (off + 4) rest with
      | .error e => .error e
      | .ok specs => .ok (⟨ie, len⟩ :: specs)
  | _ => .error (off, .Truncated)

/-- Exactly `count` field specifiers (template records declare a field
count rather than byte lengths). -/
def parseNFieldSpecs (count off : Nat) (buf : List Nat) :
    FlowResult (List FieldSpecifier × Nat × List Nat) :=
  match count with
  | 0 => .ok ([], off, buf)
  | count + 1 =>
    match buf with
    | ieHi :: ieLo :: lenHi :: lenLo :: rest =>
      let ie := ieHi * 256 + ieLo
      let len := lenHi * 256 + lenLo
      if len == 0 then .error (off, .ZeroLengthFieldSpecifier ie)
      else
        match parseNFieldSpecs count (off + 4) rest with
        | .error e => .error e
        | .ok (specs, off, rest) => .ok (⟨ie, len⟩ :: specs, off, rest)
    | _ => .error (off, .Truncated)

/-- Trailing padding of a set: every remaining octet must be zero; a
non-zero octet fails at its own offset. -/
def parsePadding (off : Nat) (buf : List Nat) : FlowResult Unit :=
  match buf with
  | [] => .ok ()
  | 0 :: rest => parsePadding (off + 1) rest
  | b :: _ => .error (off, .InvalidPaddingValue b)

/-- Template records of one template set: template id, field count,
then the declared specifiers; at most 3 octets may remain as zero
padding. -/
def parseTemplateRecords (fuel off : Nat) (buf : List Nat) :
    FlowResult (List TemplateRecord) :=
  if buf.length ≤ 3 then
    match parsePadding off buf with
    | .error e => .error e
    | .ok _ => .ok []
  else
    match fuel with
    | 0 => .error (off, .Truncated)
    | fuel + 1 =>
      match buf with
      | tidHi :: tidLo :: cntHi :: cntLo :: rest =>
        let tid := tidHi * 256 + tidLo
        let cnt := cntHi * 256 + cntLo
        match parseNFieldSpecs cnt (off + 4) rest with
        | .error e => .error e
        | .ok (specs, off, rest) =>
          match parseTemplateRecords fuel off rest with
          | .error e => .error e
          | .ok records => .ok (⟨tid, specs⟩ :: records)
      | _ => .error (off, .Truncated)

/-- Options-template records of one options-template set (NetFlow v9
layout): template id, scope byte length, options byte length, then the
scope and option specifiers parsed from the respective sub-slices. -/
def parseOptionsTemplateRecords (fuel off : Nat) (buf : List Nat) :
    FlowResult (List OptionsTemplateRecord) :=
  if buf.length ≤ 3 then
    match parsePadding off buf with
    | .error e => .error e
    | .ok _ => .ok []
  else
    match fuel with
    | 0 => .error (off, .Truncated)
    | fuel + 1 =>
      match buf with
      | tidHi :: tidLo :: scopeHi :: scopeLo :: optHi :: optLo :: rest =>
        let tid := tidHi * 256 + tidLo
        let scopeLen := scopeHi * 256 + scopeLo
        let optLen := optHi * 256 + optLo
        match takeExact scopeLen (off + 6) rest with
        | .error e => .error e
        | .ok (scopeBytes, rest) =>
          match parseFieldSpecs (off + 6) scopeBytes with
          | .error e => .error e
          | .ok scopes =>
            match takeExact optLen (off + 6 + scopeLen) rest with
            | .error e => .error e
            | .ok (optBytes, rest) =>
              match parseFieldSpecs (off + 6 + scopeLen) optBytes with
              | .error e => .error e
              | .ok fields =>
                match parseOptionsTemplateRecords fuel
                    (off + 6 + scopeLen + optLen) rest with
                | .error e => .error e
                | .ok records => .ok (⟨tid, scopes, fields⟩ :: records)
      | _ => .error (off, .Truncated)

/-- Consume one value per field specifier, as raw octets. -/
def parseDataFields (specs : List FieldSpecifier) (off : Nat) (buf : List Nat) :
    FlowResult (List DataField × Nat × List Nat) :=
  match specs with
  | [] => .ok ([], off, buf)
  | spec :: specs =>
    match takeExact spec.length off buf with
    | .error e => .error e
    | .ok (raw, rest) =>
      match parseDataFields specs (off + spec.length) rest with
      | .error e => .error e
      | .ok (fs, off, rest) => .ok (⟨spec.ie, raw⟩ :: fs, off, rest)

/-- Octet length of one data record under a cached template. -/
def recordLength (entry : List FieldSpecifier × List FieldSpecifier) : Nat :=
  (entry.1.map (fun s => s.length)).sum + (entry.2.map (fun s => s.length)).sum

/-- Data records of one data set: full records while they fit, then at
most 3 zero octets of padding; a longer remainder is a template/body
mismatch. -/
def parseDataRecords (fuel setId : Nat)
    (entry : List FieldSpecifier × List FieldSpecifier) (off : Nat)
    (buf : List Nat) : FlowResult (List DataRecord) :=
  if buf.length < recordLength entry then
    if buf.length ≤ 3 then
      match parsePadding off buf with
      | .error e => .error e
      | .ok _ => .ok []
    else .error (off, .TemplateMismatch setId buf.length)
  else
    match fuel with
    | 0 => .error (off, .Truncated)
    | fuel + 1 =>
      match parseDataFields entry.1 off buf with
      | .error e => .error e
      | .ok (scopeVals, off, buf) =>
        match parseDataFields entry.2 off buf with
        | .error e => .error e
        | .ok (fieldVals, off, buf) =>
          match parseDataRecords fuel setId entry off buf with
          | .error e => .error e
          | .ok records => .ok (⟨scopeVals, fieldVals⟩ :: records)

/-- The sets of a packet: set id, set byte length (≥ 4, including the
4-octet set header), a bounded body sub-slice, then dispatch on the set
id; template and options-template sets install their records into the
cache before any later set is decoded. -/
def parseSets (fuel off : Nat) (buf : List Nat) (templates : TemplatesMap) :
    FlowResult (List FlowSet × TemplatesMap) :=
  match buf with
  | [] => .ok ([], templates)
  | _ :: _ =>
    match fuel with
    | 0 => .error (off, .Truncated)
    | fuel + 1 =>
      match buf with
      | idHi :: idLo :: lenHi :: lenLo :: rest =>
        let id := idHi * 256 + idLo
        let len := lenHi * 256 + lenLo
        if len < 4 then .error (off + 2, .InvalidSetLength len)
        else
          match takeExact (len - 4) (off + 4) rest with
          | .error e => .error e
          | .ok (body, rest) =>
            if id == 0 then
              match parseTemplateRecords body.length (off + 4) body with
              | .error e => .error e
              | .ok records =>
                let templates := records.foldl
                  (fun m r => installTemplate m r.id ([], r.field_specifiers))
                  templates
                match parseSets fuel (off + len) rest templates with
                | .error e => .error e
                | .ok (sets, templates) => .ok (.Template records :: sets, templates)
            else if id == 1 then
              match parseOptionsTemplateRecords body.length (off + 4) body with
              | .error e => .error e
              | .ok records =>
                let templates := records.foldl
                  (fun m r =>
                    installTemplate m r.id
                      (r.scope_field_specifiers, r.field_specifiers))
                  templates
                match parseSets fuel (off + len) rest templates with
                | .error e => .error e
                | .ok (sets, templates) =>
                  .ok (.OptionsTemplate records :: sets, templates)
            else if 256 ≤ id then
              match templates.lookup id with
              | none => .error (off, .UnknownTemplate id)
              | some entry =>
                if recordLength entry == 0 then
                  .error (off + 4, .TemplateMismatch id body.length)
                else
                  match parseDataRecords body.length id entry (off + 4) body with
                  | .error e => .error e
                  | .ok records =>
                    match parseSets fuel (off + len) rest templates with
                    | .error e => .error e
                    | .ok (sets, templates) =>
                      .ok (.Data id records :: sets, templates)
            else .error (off, .InvalidSetId id)
      | _ => .error (off, .Truncated)

/-- `NetFlowV9Packet::from_wire`: the 20-octet header (version must be
9; the record count is read but, like the source's constructor, not
stored) followed by the packet's sets, threading the caller's template
cache. -/
def NetFlowV9Packet.from_wire (buf : List Nat) (templates : TemplatesMap) :
    FlowResult (NetFlowV9Packet × TemplatesMap) :=
  match buf with
  | v0 :: v1 :: c0 :: c1 :: u0 :: u1 :: u2 :: u3 :: t0 :: t1 :: t2 :: t3 ::
      q0 :: q1 :: q2 :: q3 :: i0 :: i1 :: i2 :: i3 :: rest =>
    let version := v0 * 256 + v1
    if version != 9 then .error (0, .InvalidVersion version)
    else
      let _count := c0 * 256 + c1
      let sysUp := ((u0 * 256 + u1) * 256 + u2) * 256 + u3
      let secs := ((t0 * 256 + t1) * 256 + t2) * 256 + t3
      let seq := ((q0 * 256 + q1) * 256 + q2) * 256 + q3
      let src := ((i0 * 256 + i1) * 256 + i2) * 256 + i3
      match parseSets rest.length 20 rest templates with
      | .error e => .error e
      | .ok (sets, templates) => .ok (⟨sysUp, secs, seq, src, sets⟩, templates)
  | _ => .error (0, .Truncated)

/-- Decoding with a fresh template cache, as the repository's tests do. -/
def netflowDecode (buf : List Nat) : FlowResult NetFlowV9Packet :=
  (NetFlowV9Packet.from_wire buf []).map (fun p => p.1)

/-! ### Test vectors

The literal buffers of `test_padding` and `test_zero_length_fields` in
`crates/flow-pkt/src/wire/tests/netflow.rs`. -/

/-- `good_no_padding_wire`: header, one options-template set (30
octets, no padding), one data set (55 octets, no padding). -/
def goodNoPaddingWire : List Nat :=
  [0x00, 0x09, 0x00, 0x02, 0x0f, 0x5e, 0x5c, 0x6b, 0x63, 0xd5, 0x45, 0x85,
   0x00, 0x09, 0x43, 0x2a, 0x00, 0x00, 0x00, 0x06,
   0x00, 0x01, 0x00, 0x1e, 0x01, 0x02, 0x00, 0x04, 0x00, 0x10,
   0x00, 0x01, 0x00, 0x04, 0x00, 0x30, 0x00, 0x04, 0x00, 0x54, 0x00, 0x28,
   0x00, 0x31, 0x00, 0x01, 0x00, 0x32, 0x00, 0x02,
   0x01, 0x02, 0x00, 0x37, 0xd5, 0x03, 0xdf, 0x23, 0x00, 0x00, 0x00, 0x02,
   0x4e, 0x45, 0x54, 0x46, 0x4c, 0x4f, 0x57, 0x2d, 0x53, 0x41, 0x4d, 0x50,
   0x4c, 0x45, 0x52, 0x2d, 0x4d, 0x41, 0x50, 0x00, 0x00, 0x00, 0x00, 0x00,
   0x00, 0x00, 0x00, 0x00, 0x00, 0x00, 0x00, 0x00, 0x00, 0x00, 0x00, 0x00,
   0x00, 0x00, 0x00, 0x00, 0x02, 0x01, 0x00]

/-- `good_with_padding_wire`: the same packet with 2 zero padding
octets in the options-template set and 3 in the data set. -/
def goodWithPaddingWire : List Nat :=
  [0x00, 0x09, 0x00, 0x02, 0x0f, 0x5e, 0x5c, 0x6b, 0x63, 0xd5, 0x45, 0x85,
   0x00, 0x09, 0x43, 0x2a, 0x00, 0x00, 0x00, 0x06,
   0x00, 0x01, 0x00, 0x20, 0x01, 0x02, 0x00, 0x04, 0x00, 0x10,
   0x00, 0x01, 0x00, 0x04, 0x00, 0x30, 0x00, 0x04, 0x00, 0x54, 0x00, 0x28,
   0x00, 0x31, 0x00, 0x01, 0x00, 0x32, 0x00, 0x02, 0x00, 0x00,
   0x01, 0x02, 0x00, 0x3a, 0xd5, 0x03, 0xdf, 0x23, 0x00, 0x00, 0x00, 0x02,
   0x4e, 0x45, 0x54, 0x46, 0x4c, 0x4f, 0x57, 0x2d, 0x53, 0x41, 0x4d, 0x50,
   0x4c, 0x45, 0x52, 0x2d, 0x4d, 0x41, 0x50, 0x00, 0x00, 0x00, 0x00, 0x00,
   0x00, 0x00, 0x00, 0x00, 0x00, 0x00, 0x00, 0x00, 0x00, 0x00, 0x00, 0x00,
   0x00, 0x00, 0x00, 0x00, 0x02, 0x01, 0x00, 0x00, 0x00, 0x00]

/-- `bad_padding_options_wire`: as `good_with_padding_wire` but the
second padding octet of the options-template set is `0x11`. -/
def badPaddingOptionsWire : List Nat :=
  [0x00, 0x09, 0x00, 0x02, 0x0f, 0x5e, 0x5c, 0x6b, 0x63, 0xd5, 0x45, 0x85,
   0x00, 0x09, 0x43, 0x2a, 0x00, 0x00, 0x00, 0x06,
   0x00, 0x01, 0x00, 0x20, 0x01, 0x02, 0x00, 0x04, 0x00, 0x10,
   0x00, 0x01, 0x00, 0x04, 0x00, 0x30, 0x00, 0x04, 0x00, 0x54, 0x00, 0x28,
   0x00, 0x31, 0x00, 0x01, 0x00, 0x32, 0x00, 0x02, 0x00, 0x11,
   0x01, 0x02, 0x00, 0x3a, 0xd5, 0x03, 0xdf, 0x23, 0x00, 0x00, 0x00, 0x02,
   0x4e, 0x45, 0x54, 0x46, 0x4c, 0x4f, 0x57, 0x2d, 0x53, 0x41, 0x4d, 0x50,
   0x4c, 0x45, 0x52, 0x2d, 0x4d, 0x41, 0x50, 0x00, 0x00, 0x00, 0x00, 0x00,
   0x00, 0x00, 0x00, 0x00, 0x00, 0x00, 0x00, 0x00, 0x00, 0x00, 0x00, 0x00,
   0x00, 0x00, 0x00, 0x00, 0x02, 0x01, 0x00, 0x00, 0x00, 0x00]

/-- `bad_padding_data_wire`: as `good_with_padding_wire` but the first
padding octet of the data set is `0x01`. -/
def badPaddingDataWire : List Nat :=
  [0x00, 0x09, 0x00, 0x02, 0x0f, 0x5e, 0x5c, 0x6b, 0x63, 0xd5, 0x45, 0x85,
   0x00, 0x09, 0x43, 0x2a, 0x00, 0x00, 0x00, 0x06,
   0x00, 0x01, 0x00, 0x20, 0x01, 0x02, 0x00, 0x04, 0x00, 0x10,
   0x00, 0x01, 0x00, 0x04, 0x00, 0x30, 0x00, 0x04, 0x00, 0x54, 0x00, 0x28,
   0x00, 0x31, 0x00, 0x01, 0x00, 0x32, 0x00, 0x02, 0x00, 0x00,
   0x01, 0x02, 0x00, 0x3a, 0xd5, 0x03, 0xdf, 0x23, 0x00, 0x00, 0x00, 0x02,
   0x4e, 0x45, 0x54, 0x46, 0x4c, 0x4f, 0x57, 0x2d, 0x53, 0x41, 0x4d, 0x50,
   0x4c, 0x45, 0x52, 0x2d, 0x4d, 0x41, 0x50, 0x00, 0x00, 0x00, 0x00, 0x00,
   0x00, 0x00, 0x00, 0x00, 0x00, 0x00, 0x00, 0x00, 0x00, 0x00, 0x00, 0x00,
   0x00, 0x00, 0x00, 0x00, 0x02, 0x01, 0x00, 0x01, 0x00, 0x00]

/-- The 46-octet buffer of `test_zero_length_fields`: an
options-template set whose scope field specifier declares length 0. -/
def zeroLengthFieldsWire : List Nat :=
  [0, 9, 75, 9, 0, 0, 96, 0, 33, 0, 0, 0, 47, 0, 9, 1, 0, 0, 0, 0, 0, 1,
   0, 15, 91, 0, 0, 4, 0, 0, 91, 0, 0, 0, 0, 91, 0, 0, 4, 0, 0, 0, 0, 32,
   0, 0]

end Flow

/-- The concrete counterexample message for the BGP serializer's
missing length check: an UPDATE whose total length is 65536, one more
than the 65535-octet maximum the 16-bit length field can carry. -/
def c2FailingUpdate : BgpMessage := .Update (List.replicate 65517 0)

/-- C2 (code bug): the claim says encoding an Update longer than 65535
octets fails with `BgpMessageLengthOverflow`, as the error variant's own
doc comment prescribes ("2^16 for the rest"); the code only guards Open
and KeepAlive.  At the 65536-octet Update, `write` succeeds and emits a
length field of `65536 % 2^16 = 0` (the first two octets after the
marker are `[0, 0]`) instead of returning the error. -/
theorem c2_update_overflow_unchecked :
    c2FailingUpdate.len = 65536 ∧
    c2FailingUpdate.write =
      .ok (bgpMarker ++ [0, 0] ++ [2] ++ List.replicate 65517 0) := by
  constructor
  · rw [c2FailingUpdate, BgpMessage.len, List.length_replicate]
    norm_num [BGP_MIN_MESSAGE_LENGTH]
  · rw [c2FailingUpdate, BgpMessage.write, BgpMessage.len, List.length_replicate,
      BgpMessage.get_type]
    norm_num [BGP_MIN_MESSAGE_LENGTH, u16be, BgpMessageType.code]

/-- C3: whenever `BgpMessage::write` succeeds, the number of octets it
wrote equals `BgpMessage::len` — 19 framing octets (16-octet marker,
16-bit length, 8-bit type) plus the body, and exactly 19 for
KeepAlive. -/
theorem c3_size_agreement :
    ∀ (m : BgpMessage) (bytes : List Nat),
      m.write = .ok bytes → bytes.length = m.len := by
  intro m bytes h
  cases m with
  | Open body =>
    simp only [BgpMessage.write] at h
    split at h
    · exact absurd h (by simp)
    · injection h with h
      subst h
      simp [bgpMarker, u16be, BgpMessage.len, BGP_MIN_MESSAGE_LENGTH]
      omega
  | KeepAlive =>
    simp only [BgpMessage.write] at h
    split at h
    · exact absurd h (by simp)
    · injection h with h
      subst h
      simp [bgpMarker, u16be, BgpMessage.len, BGP_MIN_MESSAGE_LENGTH]
  | Update body =>
    simp only [BgpMessage.write] at h
    injection h with h
    subst h
    simp [bgpMarker, u16be, BgpMessage.len, BGP_MIN_MESSAGE_LENGTH]
    omega
  | Notification body =>
    simp only [BgpMessage.write] at h
    injection h with h
    subst h
    simp [bgpMarker, u16be, BgpMessage.len, BGP_MIN_MESSAGE_LENGTH]
    omega
  | RouteRefresh body =>
    simp only [BgpMessage.write] at h
    injection h with h
    subst h
    simp [bgpMarker, u16be, BgpMessage.len, BGP_MIN_MESSAGE_LENGTH]
    omega

/-- Witness for C3 at the KeepAlive message. -/
theorem c3_size_agreement_witness :
    BgpMessage.KeepAlive.write = .ok (bgpMarker ++ u16be 19 ++ [4]) ∧
    (bgpMarker ++ u16be 19 ++ [4]).length = BgpMessage.KeepAlive.len :=
  have h : BgpMessage.KeepAlive.write = .ok (bgpMarker ++ u16be 19 ++ [4]) := rfl
  ⟨h, c3_size_agreement BgpMessage.KeepAlive _ h⟩

/-- C4: NetFlow v9 set decoding accepts 0..3 trailing zero padding
octets — the padded and the unpadded `test_padding` packets decode to
equal values, successfully — and rejects a non-zero padding octet with
`InvalidPaddingValue` of that octet at its absolute offset: offset 51,
value 17 for the bad options-template vector, and offset 107, value 1
for the bad data vector. -/
theorem c4_netflow_padding :
    Flow.netflowDecode Flow.goodWithPaddingWire =
      Flow.netflowDecode Flow.goodNoPaddingWire ∧
    (Flow.netflowDecode Flow.goodNoPaddingWire).isOk = true ∧
    Flow.netflowDecode Flow.badPaddingOptionsWire =
      .error (51, .InvalidPaddingValue 17) ∧
    Flow.netflowDecode Flow.badPaddingDataWire =
      .error (107, .InvalidPaddingValue 1) :=
  ⟨rfl, rfl, rfl, rfl⟩

/-- C8: the 46-octet `test_zero_length_fields` buffer — a template set
declaring a zero-length field specifier — makes the decoder return an
error (the decoder is a total function of the input, so it cannot
panic, divide by zero, or loop). -/
theorem c8_zero_length_fields_error :
    (Flow.netflowDecode Flow.zeroLengthFieldsWire).isOk = false :=
  rfl

/-- C1: `PathAttribute::from` fails with `InvalidOptionalFlagValue`
exactly when the value's matrix prescribes the opposite optional bit,
with `InvalidTransitiveFlagValue` exactly when the optional bit matches
but the transitive bit disagrees, and with `InvalidPartialFlagValue`
exactly when optional and transitive match but the partial bit
disagrees; every matrix-matching flag combination yields `Ok` with
exactly those flags and the value stored.  The named matrix rows:
Origin requires (optional, transitive, partial) = (false, true, false),
MultiExitDiscriminator requires (true, false, false), As4Path requires
optional = true, transitive = true with partial unconstrained. -/
theorem c1_flag_matrix_validation :
    ∀ (o t p e : Bool) (v : PathAttributeValue),
      ((PathAttribute.from o t p e v = .error (v, .InvalidOptionalFlagValue o)) ↔
        v.canBeOptional = some (!o)) ∧
      ((PathAttribute.from o t p e v = .error (v, .InvalidTransitiveFlagValue t)) ↔
        (v.canBeOptional ≠ some (!o) ∧ v.canBeTransitive = some (!t))) ∧
      ((PathAttribute.from o t p e v = .error (v, .InvalidPartialFlagValue p)) ↔
        (v.canBeOptional ≠ some (!o) ∧ v.canBeTransitive ≠ some (!t) ∧
          v.canBePartial = some (!p))) ∧
      (v.canBeOptional ≠ some (!o) → v.canBeTransitive ≠ some (!t) →
        v.canBePartial ≠ some (!p) →
          PathAttribute.from o t p e v = .ok ⟨o, t, p, e, v⟩) ∧
      (∀ x, (PathAttributeValue.Origin x).canBeOptional = some false ∧
        (PathAttributeValue.Origin x).canBeTransitive = some true ∧
        (PathAttributeValue.Origin x).canBePartial = some false) ∧
      (∀ x, (PathAttributeValue.MultiExitDiscriminator x).canBeOptional = some true ∧
        (PathAttributeValue.MultiExitDiscriminator x).canBeTransitive = some false ∧
        (PathAttributeValue.MultiExitDiscriminator x).canBePartial = some false) ∧
      (∀ x, (PathAttributeValue.As4Path x).canBeOptional = some true ∧
        (PathAttributeValue.As4Path x).canBeTransitive = some true ∧
        (PathAttributeValue.As4Path x).canBePartial = none) := by
  intro o t p e v
  cases v <;> cases o <;> cases t <;> cases p <;>
    simp [PathAttribute.from, PathAttributeValue.canBeOptional,
      PathAttributeValue.canBeTransitive, PathAttributeValue.canBePartial,
      Origin.canBeOptional, Origin.canBeTransitive, Origin.canBePartial,
      AsPath.canBeOptional, AsPath.canBeTransitive, AsPath.canBePartial,
      As4Path.canBeOptional, As4Path.canBeTransitive, As4Path.canBePartial,
      NextHop.canBeOptional, NextHop.canBeTransitive, NextHop.canBePartial,
      MultiExitDiscriminator.canBeOptional, MultiExitDiscriminator.canBeTransitive,
      MultiExitDiscriminator.canBePartial,
      LocalPreference.canBeOptional, LocalPreference.canBeTransitive,
      LocalPreference.canBePartial,
      AtomicAggregate.canBeOptional, AtomicAggregate.canBeTransitive,
      AtomicAggregate.canBePartial,
      Aggregator.canBeOptional, Aggregator.canBeTransitive, Aggregator.canBePartial,
      Communities.canBeOptional, Communities.canBeTransitive, Communities.canBePartial,
      ExtendedCommunities.canBeOptional, ExtendedCommunities.canBeTransitive,
      ExtendedCommunities.canBePartial,
      ExtendedCommunitiesIpv6.canBeOptional, ExtendedCommunitiesIpv6.canBeTransitive,
      ExtendedCommunitiesIpv6.canBePartial,
      LargeCommunities.canBeOptional, LargeCommunities.canBeTransitive,
      LargeCommunities.canBePartial,
      Originator.canBeOptional, Originator.canBeTransitive, Originator.canBePartial,
      ClusterList.canBeOptional, ClusterList.canBeTransitive, ClusterList.canBePartial,
      MpReach.canBeOptional, MpReach.canBeTransitive, MpReach.canBePartial,
      MpUnreach.canBeOptional, MpUnreach.canBeTransitive, MpUnreach.canBePartial,
      BgpLsAttribute.canBeOptional, BgpLsAttribute.canBeTransitive,
      BgpLsAttribute.canBePartial,
      OnlyToCustomer.canBeOptional, OnlyToCustomer.canBeTransitive,
      OnlyToCustomer.canBePartial,
      Aigp.canBeOptional, Aigp.canBeTransitive, Aigp.canBePartial,
      PrefixSegmentIdentifier.canBeOptional, PrefixSegmentIdentifier.canBeTransitive,
      PrefixSegmentIdentifier.canBePartial,
      UnknownAttribute.canBeOptional, UnknownAttribute.canBeTransitive,
      UnknownAttribute.canBePartial]

/-- Witness for C1: Origin with its matrix flags (well-known,
transitive, complete) constructs successfully. -/
theorem c1_flag_matrix_validation_witness :
    PathAttribute.from false true false false (.Origin .IGP) =
      .ok ⟨false, true, false, false, .Origin .IGP⟩ :=
  (c1_flag_matrix_validation false true false false (.Origin .IGP)).2.2.2.1
    (by decide) (by decide) (by decide)

/-- C5: `BmpV4RouteMonitoringTlv::build` fails with
`BadGroupTlvIndex(index)` iff the value is a `GroupTlv` and the most
significant bit of the 16-bit index is 0 (i.e. `index < 0x8000`), with
`VrfTableNameStringIsTooLong(len)` iff the value is a `VrfTableName` of
byte length `len > 255`, with `BadBgpMessageType(t)` iff the value is a
`BgpUpdatePdu` wrapping a message of type `t ≠ Update`, and succeeds
with exactly the given index and value in every other case. -/
theorem c5_route_monitoring_tlv_build :
    ∀ (index : Nat) (value : BmpV4RouteMonitoringTlvValue), index < 65536 →
      ((BmpV4RouteMonitoringTlv.build index value =
          .error (.BadGroupTlvIndex index)) ↔
        ((∃ g, value = .GroupTlv g) ∧ index < 32768)) ∧
      (∀ len, (BmpV4RouteMonitoringTlv.build index value =
          .error (.VrfTableNameStringIsTooLong len)) ↔
        (∃ s, value = .VrfTableName s ∧ s.length = len ∧ 255 < len)) ∧
      (∀ t, (BmpV4RouteMonitoringTlv.build index value =
          .error (.BadBgpMessageType t)) ↔
        (∃ m, value = .BgpUpdatePdu m ∧ m.get_type = t ∧ t ≠ .Update)) ∧
      ((¬ ((∃ g, value = .GroupTlv g) ∧ index < 32768)) →
        (¬ (∃ s, value = .VrfTableName s ∧ 255 < s.length)) →
        (¬ (∃ m, value = .BgpUpdatePdu m ∧ m.get_type ≠ .Update)) →
          BmpV4RouteMonitoringTlv.build index value = .ok ⟨index, value⟩) := by
  intro index value hidx
  have hmod : index % 65536 = index := Nat.mod_eq_of_lt hidx
  cases value with
  | BgpUpdatePdu m =>
    by_cases h : m.get_type = BgpMessageType.Update <;>
      simp [BmpV4RouteMonitoringTlv.build, h]
  | VrfTableName s =>
    by_cases h : 255 < s.length <;>
      simp [BmpV4RouteMonitoringTlv.build, h]
    all_goals omega
  | GroupTlv g =>
    by_cases h : index < 32768 <;>
      simp [BmpV4RouteMonitoringTlv.build, hmod, h]
  | StatelessParsing c => simp [BmpV4RouteMonitoringTlv.build]
  | PathMarking p => simp [BmpV4RouteMonitoringTlv.build]
  | Unknown c val => simp [BmpV4RouteMonitoringTlv.build]

/-- Witness for C5: a `GroupTlv` whose index has the G bit set builds
successfully. -/
theorem c5_route_monitoring_tlv_build_witness :
    BmpV4RouteMonitoringTlv.build 32768 (.GroupTlv []) =
      .ok ⟨32768, .GroupTlv []⟩ :=
  (c5_route_monitoring_tlv_build 32768 (.GroupTlv []) (by decide)).2.2.2
    (fun h => absurd h.2 (by decide))
    (fun h => by rcases h with ⟨s, hs, _⟩; cases hs)
    (fun h => by rcases h with ⟨m, hm, _⟩; cases hm)

/-- C6: every message `BmpV4RouteMonitoringMessage::build` produces has
its required update-PDU TLV at index 0 holding `BgpUpdatePdu` of the
given BGP message of type Update, so `update_message()` returns that
message (never the `unreachable!()` arm, modelled as `none`); build
fails with `BadBgpMessageType` when the message is not an Update. -/
theorem c6_route_monitoring_builder :
    ∀ (ph : PeerHeader) (pdu : BgpMessage) (tlvs : List BmpV4RouteMonitoringTlv),
      (∀ msg, BmpV4RouteMonitoringMessage.build ph pdu tlvs = .ok msg →
        msg.update_pdu.index = 0 ∧
        msg.update_pdu.value = .BgpUpdatePdu pdu ∧
        pdu.get_type = .Update ∧
        msg.update_message = some pdu) ∧
      (pdu.get_type ≠ .Update →
        BmpV4RouteMonitoringMessage.build ph pdu tlvs =
          .error (.TlvError (.BadBgpMessageType pdu.get_type))) := by
  intro ph pdu tlvs
  by_cases h : pdu.get_type = BgpMessageType.Update <;>
    constructor <;>
    simp [BmpV4RouteMonitoringMessage.build, BmpV4RouteMonitoringTlv.build,
      BmpV4RouteMonitoringMessage.update_message, h]

/-- Witness for C6 at an empty Update message. -/
theorem c6_route_monitoring_builder_witness :
    BmpV4RouteMonitoringMessage.update_message
        ⟨⟨[]⟩, ⟨0, .BgpUpdatePdu (.Update [])⟩, []⟩ = some (.Update []) ∧
    BgpMessage.get_type (.Update []) = .Update :=
  have h : BmpV4RouteMonitoringMessage.build ⟨[]⟩ (.Update []) [] =
      .ok ⟨⟨[]⟩, ⟨0, .BgpUpdatePdu (.Update [])⟩, []⟩ := rfl
  ⟨((c6_route_monitoring_builder ⟨[]⟩ (.Update []) []).1 _ h).2.2.2,
   ((c6_route_monitoring_builder ⟨[]⟩ (.Update []) []).1 _ h).2.2.1⟩

/-- Helper for C10: the `MpReach` projections are mutually consistent. -/
theorem mpReach_afi_safi_consistent (r : MpReach) :
    (∀ t, r.address_type = .ok t →
      t.address_family = r.afi ∧ t.subsequent_address_family = r.safi) ∧
    (∀ afi safi val, r = .Unknown afi safi val →
      r.address_type = .error (afi, safi) ∧ r.afi = afi ∧ r.safi = safi) ∧
    (r.address_type.isOk = true ∨ ∃ afi safi val, r = .Unknown afi safi val) := by
  cases r <;>
    simp [MpReach.address_type, MpReach.afi, MpReach.safi, Except.isOk, Except.toBool,
      AddressType.address_family, AddressType.subsequent_address_family]

/-- Helper for C10: the `MpUnreach` projections are mutually
consistent. -/
theorem mpUnreach_afi_safi_consistent (u : MpUnreach) :
    (∀ t, u.address_type = .ok t →
      t.address_family = u.afi ∧ t.subsequent_address_family = u.safi) ∧
    (∀ afi safi val, u = .Unknown afi safi val →
      u.address_type = .error (afi, safi) ∧ u.afi = afi ∧ u.safi = safi) ∧
    (u.address_type.isOk = true ∨ ∃ afi safi val, u = .Unknown afi safi val) := by
  cases u <;>
    simp [MpUnreach.address_type, MpUnreach.afi, MpUnreach.safi, Except.isOk, Except.toBool,
      AddressType.address_family, AddressType.subsequent_address_family]

/-- C10: for every non-Unknown `MpReach`/`MpUnreach` value,
`address_type()` returns `Ok t` with `t`'s AFI equal to `afi()` and
`t`'s SAFI equal to `safi()`; for `Unknown{afi, safi, ..}`,
`address_type()` returns `Err((afi, safi))` and `afi()`/`safi()` return
the stored pair. -/
theorem c10_mp_afi_safi_consistency :
    ∀ (r : MpReach) (u : MpUnreach),
      (∀ t, r.address_type = .ok t →
        t.address_family = r.afi ∧ t.subsequent_address_family = r.safi) ∧
      (∀ afi safi val, r = .Unknown afi safi val →
        r.address_type = .error (afi, safi) ∧ r.afi = afi ∧ r.safi = safi) ∧
      (r.address_type.isOk = true ∨ ∃ afi safi val, r = .Unknown afi safi val) ∧
      (∀ t, u.address_type = .ok t →
        t.address_family = u.afi ∧ t.subsequent_address_family = u.safi) ∧
      (∀ afi safi val, u = .Unknown afi safi val →
        u.address_type = .error (afi, safi) ∧ u.afi = afi ∧ u.safi = safi) ∧
      (u.address_type.isOk = true ∨ ∃ afi safi val, u = .Unknown afi safi val) :=
  fun r u =>
    ⟨(mpReach_afi_safi_consistent r).1, (mpReach_afi_safi_consistent r).2.1,
     (mpReach_afi_safi_consistent r).2.2, (mpUnreach_afi_safi_consistent u).1,
     (mpUnreach_afi_safi_consistent u).2.1, (mpUnreach_afi_safi_consistent u).2.2⟩

/-- Witness for C10 at Ipv4Unicast and an Unknown AppleTalk pair. -/
theorem c10_mp_afi_safi_consistency_witness :
    (AddressType.Ipv4Unicast.address_family =
        (MpReach.Ipv4Unicast (IpAddr.V4 0) none []).afi ∧
      AddressType.Ipv4Unicast.subsequent_address_family =
        (MpReach.Ipv4Unicast (IpAddr.V4 0) none []).safi) ∧
    ((MpUnreach.Unknown .AppleTalk .Unicast []).address_type =
        .error (.AppleTalk, .Unicast) ∧
      (MpUnreach.Unknown .AppleTalk .Unicast []).afi = .AppleTalk ∧
      (MpUnreach.Unknown .AppleTalk .Unicast []).safi = .Unicast) :=
  ⟨(c10_mp_afi_safi_consistency (.Ipv4Unicast (IpAddr.V4 0) none [])
      (.Unknown .AppleTalk .Unicast [])).1 .Ipv4Unicast rfl,
   (c10_mp_afi_safi_consistency (.Ipv4Unicast (IpAddr.V4 0) none [])
      (.Unknown .AppleTalk .Unicast [])).2.2.2.2.1 .AppleTalk .Unicast [] rfl⟩

/-- C7: the AS_PATH decoder selects the ASN width from its `asn4`
context — with `asn4 = false` a successful parse always yields
`As2PathSegments` (2-octet segment parser), with `asn4 = true` always
`As4PathSegments`; and `AS4Path::from_wire`, which has no `asn4` input,
parses exactly as the 4-octet branch of `ASPath::from_wire` does. -/
theorem c7_as_path_width_selection :
    ∀ (buf : List Nat) (ext : Bool),
      (∀ out, AsPath.from_wire buf ext false = .ok out →
        ∃ segments, out.1 = .As2PathSegments segments) ∧
      (∀ out, AsPath.from_wire buf ext true = .ok out →
        ∃ segments, out.1 = .As4PathSegments segments) ∧
      (AsPath.from_wire buf ext true =
        match As4Path.from_wire buf ext with
        | .error e => .error e
        | .ok (p, rest) => .ok (.As4PathSegments p.segments, rest)) := by
  intro buf ext
  refine ⟨?_, ?_, ?_⟩
  · intro out hok
    unfold AsPath.from_wire at hok
    rcases h : lengthData ext buf with _ | ⟨sb, rest⟩ <;> rw [h] at hok
    · exact absurd hok (by simp)
    · simp only [Bool.false_eq_true, if_false] at hok
      rcases h2 : parseTillEmptyAs2 sb.length sb with e | segments <;>
        rw [h2] at hok
      · exact absurd hok (by simp)
      · injection hok with hok
        exact ⟨segments, by rw [← hok]⟩
  · intro out hok
    unfold AsPath.from_wire at hok
    rcases h : lengthData ext buf with _ | ⟨sb, rest⟩ <;> rw [h] at hok
    · exact absurd hok (by simp)
    · simp only [if_true] at hok
      rcases h2 : parseTillEmptyAs4 sb.length sb with e | segments <;>
        rw [h2] at hok
      · exact absurd hok (by simp)
      · injection hok with hok
        exact ⟨segments, by rw [← hok]⟩
  · unfold AsPath.from_wire As4Path.from_wire
    rcases h : lengthData ext buf with _ | ⟨sb, rest⟩ <;> simp [h]
    rcases h2 : parseTillEmptyAs4 sb.length sb with e | segments <;> simp [h2]

/-- Witness for C7 at a one-segment 2-octet AS_PATH body. -/
theorem c7_as_path_width_selection_witness :
    AsPath.from_wire [4, 2, 1, 0, 1] false false =
      .ok (.As2PathSegments [⟨.AsSequence, [1]⟩], []) ∧
    ∃ segments,
      ((AsPath.As2PathSegments [⟨.AsSequence, [1]⟩], ([] : List Nat))).1 =
        AsPath.As2PathSegments segments :=
  have h : AsPath.from_wire [4, 2, 1, 0, 1] false false =
      .ok (.As2PathSegments [⟨.AsSequence, [1]⟩], []) := rfl
  ⟨h, (c7_as_path_width_selection [4, 2, 1, 0, 1] false).1 _ h⟩

/-- C9: the legacy path-attribute decoder handles only the Origin,
ASPath, AS4Path and NextHop type codes; for an input whose second octet
is any other recognized attribute type code it reaches the source's
`todo!()` (modelled as `reachesTodo`) instead of returning a value or
an error, while the four handled codes never reach it. -/
theorem c9_legacy_decoder_reaches_todo :
    ∀ (a code : Nat) (rest : List Nat) (asn4 : Bool) (t : PathAttributeType),
      PathAttributeType.tryFrom code = some t →
      ((t ≠ .Origin → t ≠ .ASPath → t ≠ .AS4Path → t ≠ .NextHop →
        SerdePathAttribute.from_wire (a :: code :: rest) asn4 = .reachesTodo) ∧
      ((t = .Origin ∨ t = .ASPath ∨ t = .AS4Path ∨ t = .NextHop) →
        SerdePathAttribute.from_wire (a :: code :: rest) asn4 ≠ .reachesTodo)) := by
  intro a code rest asn4 t ht
  constructor
  · intro h1 h2 h3 h4
    simp only [SerdePathAttribute.from_wire, be_u8, ht]
    cases t <;> first
      | rfl
      | exact absurd rfl h1
      | exact absurd rfl h2
      | exact absurd rfl h3
      | exact absurd rfl h4
  · intro hfour
    simp only [SerdePathAttribute.from_wire, be_u8, ht]
    rcases hfour with h | h | h | h <;> subst h
    · rcases h2 : Origin.from_wire rest (a &&& 16 == 16) with e | pr <;>
        simp [h2]
    · rcases h2 : AsPath.from_wire rest (a &&& 16 == 16) asn4 with e | pr <;>
        simp [h2]
    · rcases h2 : As4Path.from_wire rest (a &&& 16 == 16) with e | pr <;>
        simp [h2]
    · rcases h2 : NextHop.from_wire rest (a &&& 16 == 16) with e | pr <;>
        simp [h2]

/-- Witness for C9 at the MULTI_EXIT_DISC type code (4). -/
theorem c9_legacy_decoder_reaches_todo_witness :
    SerdePathAttribute.from_wire [64, 4] false = .reachesTodo :=
  (c9_legacy_decoder_reaches_todo 64 4 [] false .MultiExitDiscriminator rfl).1
    (by decide) (by decide) (by decide) (by decide)

end NetGauze
